import Mathlib

/-!
Verification development for the token-constraint prober of cargoshipper-mcp
(`src/cargoshipper_mcp/utils/token_inspector.py` and the permission check in
`src/cargoshipper_mcp/utils/validation.py`).

The Python code is embedded shallowly: each underlying backend call is
modelled as an `Except String α` value (an ordinary Python exception carrying
its `str(e)` message, or a success value), a "backend behavior" structure
collects the outcomes of all the calls a probe can make, and each probe
function becomes a total Lean function from a behavior to a `TokenConstraints`
record, following the Python control flow statement by statement.

A `try` block whose body consists only of list appends / attribute
assignments (no backend call) cannot raise, so its `except` branch is dead
code; the embedding of such a block is just its body.  This concerns:
  * the docker probe's "write operations" block (`docker.containers.create`),
  * the DigitalOcean probe's "write operations" block (`droplets.write`),
    whose `except` branch is the only writer of `read_only = True` there,
  * the CloudFlare probe's "DNS record operations" block,
  * the outer `try` of the DigitalOcean and CloudFlare probes: every
    statement in their bodies is either inside an inner `try/except
    Exception` or is a non-raising assignment, so the outer
    `api.unavailable` branch is unreachable for ordinary exceptions.
The docker probe's outer `try` is live: `import docker` / `docker.from_env()`
sit in it directly, outside any inner `try`.
-/

/-- Characters of `p` are an initial segment of `l` (list-level prefix test,
used to embed Python's substring operator `in`). -/
def leadMatch : List Char → List Char → Bool
  | [], _ => true
  | _ :: _, [] => false
  | a :: as, b :: bs => a = b && leadMatch as bs

/-- `needle` occurs contiguously somewhere in `hay` (embeds Python's
`needle in hay` on strings). -/
def subMatch (needle : List Char) : List Char → Bool
  | [] => needle.isEmpty
  | b :: bs => leadMatch needle (b :: bs) || subMatch needle bs

/-- Python `needle in hay` for strings. -/
def strContains (needle hay : String) : Bool :=
  subMatch needle.data hay.data

/-- Python `s.lower()` (ASCII, which is all the code ever feeds it),
written over the character list so it evaluates inside the kernel. -/
def lowerStr (s : String) : String :=
  ⟨s.data.map Char.toLower⟩

/-- Python `s.replace('_', '.')` (single-character replace is a map). -/
def underscoreToDot (s : String) : String :=
  ⟨s.data.map (fun c => if c = '_' then '.' else c)⟩

/-- Values stored in the `rate_limits` dict (it mixes ints and strings). -/
inductive RateVal where
  | nat (n : Nat)
  | str (s : String)
deriving DecidableEq, Repr

/-- Embeds class `TokenConstraints` of `token_inspector.py`: the nine fields
set by `__init__`, with `datetime` expiry carried as its normalized ISO
string. -/
structure TokenConstraints where
  permissions : List String := []
  restrictions : List String := []
  scopes : List String := []
  rate_limits : List (String × RateVal) := []
  expires_at : Option String := none
  read_only : Bool := false
  allowed_resources : List String := []
  forbidden_resources : List String := []
  account_level : Option String := none
deriving DecidableEq, Repr

/-- Outcomes of the backend calls `detect_docker_constraints` can make.
`fromEnv` covers `import docker; docker.from_env()` (the only statements of
the outer `try` that can raise). -/
structure DockerBehavior where
  fromEnv : Except String Unit
  ping : Except String Unit
  containersList : Except String Unit
  imagesList : Except String Unit

/-- Embeds `detect_docker_constraints` (token_inspector.py, lines 40-81).
If `docker.from_env()` raises, the outer handler appends
`docker.unavailable: <e>` to the so-far empty record.  Otherwise the four
check blocks run in order; the fourth block's body is a bare append
(`docker.containers.create`), so its handler (which would set
`read_only = True` and append `docker.containers.create_denied`) is dead. -/
def detect_docker_constraints (b : DockerBehavior) : TokenConstraints :=
  match b.fromEnv with
  | .error e => { restrictions := ["docker.unavailable: " ++ e] }
  | .ok _ =>
    let c : TokenConstraints := {}
    let c := match b.ping with
      | .ok _ => { c with permissions := c.permissions ++ ["docker.ping", "docker.info"] }
      | .error _ => { c with restrictions := c.restrictions ++ ["docker.ping_failed"] }
    let c := match b.containersList with
      | .ok _ => { c with permissions := c.permissions ++ ["docker.containers.read"] }
      | .error _ => { c with restrictions := c.restrictions ++ ["docker.containers.read_denied"] }
    let c := match b.imagesList with
      | .ok _ => { c with permissions := c.permissions ++ ["docker.images.read"] }
      | .error _ => { c with restrictions := c.restrictions ++ ["docker.images.read_denied"] }
    { c with permissions := c.permissions ++ ["docker.containers.create"] }

/-- Outcomes of the calls `detect_digitalocean_constraints` makes on its
client.  `accountGet` yields the account's `status` attribute when present
(`.ok (some s)`), or `.ok none` when the account object has no `status`. -/
structure DOBehavior where
  accountGet : Except String (Option String)
  dropletsList : Except String Unit
  domainsList : Except String Unit

/-- Embeds `detect_digitalocean_constraints` (token_inspector.py, lines
84-135).  The "write operations" block's body is a bare append of
`droplets.write`, so the handler that could set `read_only = True` /
`token.read_only` or `droplets.write_denied` is dead; so is the outer
`api.unavailable` handler (all raising statements are inside inner
handlers). -/
def detect_digitalocean_constraints (b : DOBehavior) : TokenConstraints :=
  let c : TokenConstraints := {}
  let c := match b.accountGet with
    | .ok st =>
      let c := { c with permissions := c.permissions ++ ["account.read"] }
      match st with
      | some s => { c with account_level := some s }
      | none => c
    | .error e => { c with restrictions := c.restrictions ++ ["account.read_denied: " ++ e] }
  let c := match b.dropletsList with
    | .ok _ => { c with permissions := c.permissions ++ ["droplets.read"] }
    | .error e => { c with restrictions := c.restrictions ++ ["droplets.read_denied: " ++ e] }
  let c := match b.domainsList with
    | .ok _ => { c with permissions := c.permissions ++ ["domains.read"] }
    | .error e => { c with restrictions := c.restrictions ++ ["domains.read_denied: " ++ e] }
  let c := { c with permissions := c.permissions ++ ["droplets.write"] }
  { c with
    rate_limits := [("requests_per_hour", .nat 5000),
                    ("note", .str "Rate limits detected from API headers when available")] }

/-- Token info inside a successful CloudFlare `tokens.verify` result:
`status` is the `status` attribute when present; `expires_on` is `none` when
the attribute is absent or falsy, `some (.ok t)` when
`datetime.fromisoformat(expires_on.replace('Z', '+00:00'))` parses to the
normalized string `t`, and `some (.error e)` when that parse raises. -/
structure CFTokenInfo where
  status : Option String
  expires_on : Option (Except String String)

/-- Result object of CloudFlare `tokens.verify`: whether
`hasattr(result, 'success') and result.success` holds, and the `result`
attribute when present. -/
structure CFVerifyResult where
  success : Bool
  result : Option CFTokenInfo

/-- Outcomes of the calls `detect_cloudflare_constraints` makes on its
client.  `zonesList` yields the zone names of `zones.result` (empty when the
attribute is absent or the list falsy). -/
structure CFBehavior where
  tokensVerify : Except String CFVerifyResult
  zonesList : Except String (List String)
  accountsList : Except String Unit

/-- Embeds `detect_cloudflare_constraints` (token_inspector.py, lines
138-205).  The expiry parse sits inside the verification block, so a parse
failure lands in `token.verification_failed` after the earlier appends of
that block already happened.  The "DNS record operations" block's body is a
guarded append (no call), so its handler is dead, as is the outer
`api.unavailable` handler.  No statement of this probe assigns
`read_only`. -/
def detect_cloudflare_constraints (b : CFBehavior) : TokenConstraints :=
  let c : TokenConstraints := {}
  let c := match b.tokensVerify with
    | .ok r =>
      if r.success then
        let c := { c with permissions := c.permissions ++ ["token.verified"] }
        match r.result with
        | some ti =>
          let c := match ti.status with
            | some st =>
              if st = "active" then
                { c with permissions := c.permissions ++ ["token.active"] }
              else
                { c with restrictions := c.restrictions ++ ["token.status: " ++ st] }
            | none => c
          match ti.expires_on with
          | some (.ok t) => { c with expires_at := some t }
          | some (.error e) =>
            { c with restrictions := c.restrictions ++ ["token.verification_failed: " ++ e] }
          | none => c
        | none => c
      else c
    | .error e => { c with restrictions := c.restrictions ++ ["token.verification_failed: " ++ e] }
  let c := match b.zonesList with
    | .ok names =>
      let c := { c with permissions := c.permissions ++ ["zones.read"] }
      if names.isEmpty then c
      else { c with allowed_resources := c.allowed_resources ++ names.take 5 }
    | .error e => { c with restrictions := c.restrictions ++ ["zones.read_denied: " ++ e] }
  let c :=
    if c.allowed_resources.isEmpty then c
    else { c with permissions := c.permissions ++ ["dns.read"] }
  let c := match b.accountsList with
    | .ok _ => { c with permissions := c.permissions ++ ["accounts.read"] }
    | .error e => { c with restrictions := c.restrictions ++ ["accounts.read_denied: " ++ e] }
  { c with
    rate_limits := [("global_limit", .str "1200/5min"),
                    ("note", .str "CloudFlare uses complex rate limiting per endpoint")] }

/-- The minimal record the aggregator synthesizes for a backend whose probe
task came back as an exception (token_inspector.py, lines 231-234). -/
def errorConstraint (msg : String) : TokenConstraints :=
  { restrictions := ["detection_failed: " ++ msg] }

/-- Embeds the result-collection loop of `get_all_token_constraints`
(token_inspector.py, lines 227-240): each gathered task outcome is either a
completed record (kept as is) or an exception (replaced by
`errorConstraint`). -/
def collect_results : List (String × Except String TokenConstraints) → List (String × TokenConstraints)
  | [] => []
  | (name, .ok r) :: rest => (name, r) :: collect_results rest
  | (name, .error e) :: rest => (name, errorConstraint e) :: collect_results rest

/-- Embeds `get_all_token_constraints` (token_inspector.py, lines 208-240).
The three client arguments gate task creation (`if docker_client:` etc.);
the docker client value is never used beyond that truthiness test, since
`detect_docker_constraints` takes no argument and builds its own client from
the environment, modelled by the separate `dockerEnv` behavior.  The probe
functions are total, so every task outcome fed to the collection loop is a
success. -/
def get_all_token_constraints {α : Type} (docker_client : Option α)
    (digitalocean_client : Option DOBehavior) (cloudflare_client : Option CFBehavior)
    (dockerEnv : DockerBehavior) : List (String × TokenConstraints) :=
  let tasks : List (String × Except String TokenConstraints) :=
    (match docker_client with
      | some _ => [("docker", .ok (detect_docker_constraints dockerEnv))]
      | none => [])
    ++ (match digitalocean_client with
      | some h => [("digitalocean", .ok (detect_digitalocean_constraints h))]
      | none => [])
    ++ (match cloudflare_client with
      | some h => [("cloudflare", .ok (detect_cloudflare_constraints h))]
      | none => [])
  collect_results tasks

/-- Outcome of `validate_token_permissions`: Python returns `None` (allow) or
raises `CargoShipperError` from one of three distinct deny sites; the
constructor records which site fired and, for a restriction match, the
restriction text the error message cites verbatim. -/
inductive PermDecision where
  | allow
  | denyReadOnly
  | denyRestriction (r : String)
  | denyInsufficient
deriving DecidableEq, Repr

/-- The `write_operations` list of `validate_token_permissions`
(validation.py, line 91). -/
def write_operations : List String :=
  ["create", "delete", "update", "modify", "start", "stop", "restart"]

/-- Embeds `validate_token_permissions` (validation.py, lines 82-121).  The
constraint mapping is the aggregator's output, an association list from
service name to record; `constraint.get('read_only', False)` etc. are the
record's fields. -/
def validate_token_permissions (service operation : String)
    (constraints : List (String × TokenConstraints)) : PermDecision :=
  match constraints.lookup service with
  | none => .allow
  | some c =>
    if c.read_only && write_operations.any (fun op => strContains op (lowerStr operation)) then
      .denyReadOnly
    else
      let operation_lower := lowerStr operation
      match c.restrictions.find? (fun r => strContains operation_lower (lowerStr r)) with
      | some r => .denyRestriction r
      | none =>
        if c.permissions.isEmpty then .allow
        else
          let operation_allowed := c.permissions.any (fun perm =>
            strContains operation_lower (lowerStr perm) ||
            strContains (lowerStr (underscoreToDot operation)) (lowerStr perm))
          if operation_allowed then .allow else .denyInsufficient

/-- Modelled from the spec's decision policy for the permission-check helper
(spec section 4.3, steps 1-5), written independently of the code: absent
backend → allow; read-only and a write verb in the operation → deny citing
read-only; a restriction containing the operation (case-insensitive) → deny
citing it; non-empty permissions none of which contain the operation or its
dotted form → deny; otherwise allow. -/
def permission_policy_spec (service operation : String)
    (constraints : List (String × TokenConstraints)) : PermDecision :=
  match constraints.lookup service with
  | none => .allow
  | some c =>
    if c.read_only = true ∧ ∃ v ∈ write_operations, strContains v (lowerStr operation) then
      .denyReadOnly
    else
      match c.restrictions.find? (fun r => strContains (lowerStr operation) (lowerStr r)) with
      | some r => .denyRestriction r
      | none =>
        if c.permissions ≠ [] ∧
            ∀ p ∈ c.permissions, ¬ (strContains (lowerStr operation) (lowerStr p) = true ∨
              strContains (lowerStr (underscoreToDot operation)) (lowerStr p) = true) then
          .denyInsufficient
        else .allow

/-- A restrictions entry of the shape the spec's data model describes:
`"<capability>_denied: <text>"` or `"<capability>.unavailable: <text>"`. -/
def restrWellFormed (s : String) : Prop :=
  (∃ cap err, s = cap ++ "_denied: " ++ err) ∨ (∃ cap err, s = cap ++ ".unavailable: " ++ err)

/-- Executable test for `restrWellFormed`. -/
def matchesRestrForm (s : String) : Bool :=
  strContains "_denied: " s || strContains ".unavailable: " s

/-- Python `s.startswith(m)`, used to describe the CloudFlare probe's extra
restriction shapes. -/
def strStarts (m s : String) : Bool :=
  leadMatch m.data s.data

/-- The record-level invariant of spec claim C6: a read-only record carries a
restriction whose text mentions `read_only`. -/
def readOnlyOk (c : TokenConstraints) : Bool :=
  !c.read_only || c.restrictions.any (fun r => strContains "read_only" r)

theorem leadMatch_iff (p l : List Char) : leadMatch p l = true ↔ ∃ q, l = p ++ q := by
  induction p generalizing l with
  | nil => simp [leadMatch]
  | cons a as ih =>
    cases l with
    | nil => simp [leadMatch]
    | cons b bs =>
      simp [leadMatch, ih, eq_comm (a := a) (b := b)]

theorem leadMatch_append (p l e : List Char) (h : leadMatch p l = true) :
    leadMatch p (l ++ e) = true := by
  rw [leadMatch_iff] at h ⊢
  obtain ⟨q, rfl⟩ := h
  exact ⟨q ++ e, by simp⟩

theorem subMatch_iff (n l : List Char) : subMatch n l = true ↔ ∃ p q, l = p ++ n ++ q := by
  induction l with
  | nil =>
    simp [subMatch, List.isEmpty_iff]
  | cons b bs ih =>
    simp [subMatch, ih, leadMatch_iff]
    constructor
    · rintro (⟨q, hq⟩ | ⟨p, q, hq⟩)
      · exact ⟨[], q, by simp [hq]⟩
      · exact ⟨b :: p, q, by simp [hq]⟩
    · rintro ⟨p, q, hq⟩
      cases p with
      | nil => exact Or.inl ⟨q, by simpa using hq⟩
      | cons x xs =>
        simp at hq
        exact Or.inr ⟨xs, q, by simp [hq.2]⟩

theorem strContains_iff (m s : String) :
    strContains m s = true ↔ ∃ pre post, s = pre ++ m ++ post := by
  rw [strContains, subMatch_iff]
  constructor
  · rintro ⟨p, q, h⟩
    refine ⟨⟨p⟩, ⟨q⟩, String.ext ?_⟩
    simp [String.data_append, h]
  · rintro ⟨pre, post, rfl⟩
    exact ⟨pre.data, post.data, by simp [String.data_append]⟩

theorem strContains_append_right (m s t : String) (h : strContains m s = true) :
    strContains m (s ++ t) = true := by
  rw [strContains_iff] at h ⊢
  obtain ⟨p, q, rfl⟩ := h
  exact ⟨p, q ++ t, by simp [String.append_assoc]⟩

theorem strStarts_append (m s t : String) (h : strStarts m s = true) :
    strStarts m (s ++ t) = true := by
  rw [strStarts, String.data_append]
  exact leadMatch_append _ _ _ h

theorem matchesRestrForm_iff (s : String) :
    matchesRestrForm s = true ↔ restrWellFormed s := by
  simp only [matchesRestrForm, restrWellFormed, Bool.or_eq_true, strContains_iff]

theorem matchesRestrForm_append (s t : String) (h : matchesRestrForm s = true) :
    matchesRestrForm (s ++ t) = true := by
  simp only [matchesRestrForm, Bool.or_eq_true] at h ⊢
  rcases h with h' | h'
  · exact Or.inl (strContains_append_right _ _ _ h')
  · exact Or.inr (strContains_append_right _ _ _ h')

theorem docker_read_only_false (b : DockerBehavior) :
    (detect_docker_constraints b).read_only = false := by
  unfold detect_docker_constraints
  repeat' split
  all_goals rfl

theorem dio_read_only_false (b : DOBehavior) :
    (detect_digitalocean_constraints b).read_only = false := by
  unfold detect_digitalocean_constraints
  repeat' split
  all_goals rfl

theorem cf_read_only_false (b : CFBehavior) :
    (detect_cloudflare_constraints b).read_only = false := by
  unfold detect_cloudflare_constraints
  repeat' split
  all_goals simp [apply_ite (f := TokenConstraints.read_only)]

/-- The three bare per-check failure tags of the docker probe (appended with
no colon-separated error text, unlike the other backends' denial tags). -/
def dockerBareTags : List String :=
  ["docker.ping_failed", "docker.containers.read_denied", "docker.images.read_denied"]

/-- C2: for every subset of the three backend handles (including the empty
subset), the key sequence of the aggregator's output is exactly the set of
backend names whose handle was present — an absent handle is skipped
entirely, producing neither an entry nor an error. -/
theorem C2_keys_match_present_handles {α : Type} (dc : Option α)
    (doc : Option DOBehavior) (cc : Option CFBehavior) (env : DockerBehavior) :
    (get_all_token_constraints dc doc cc env).map Prod.fst =
      (if dc.isSome then ["docker"] else []) ++
      (if doc.isSome then ["digitalocean"] else []) ++
      (if cc.isSome then ["cloudflare"] else []) := by
  cases dc <;> cases doc <;> cases cc <;>
    simp [get_all_token_constraints, collect_results]

/-- C3: when three backend tasks are gathered and exactly one comes back as
an exception (whichever of the three it is), the collection loop of
`get_all_token_constraints` still returns all three entries; the failing
backend's record is the synthesized one with restrictions
`["detection_failed: <message>"]` and empty permissions, and the other two
records are exactly the ones their probes produced. -/
theorem C3_failure_isolation (r r' : TokenConstraints) (msg : String) :
    collect_results [("docker", .error msg), ("digitalocean", .ok r), ("cloudflare", .ok r')] =
      [("docker", errorConstraint msg), ("digitalocean", r), ("cloudflare", r')] ∧
    collect_results [("docker", .ok r), ("digitalocean", .error msg), ("cloudflare", .ok r')] =
      [("docker", r), ("digitalocean", errorConstraint msg), ("cloudflare", r')] ∧
    collect_results [("docker", .ok r), ("digitalocean", .ok r'), ("cloudflare", .error msg)] =
      [("docker", r), ("digitalocean", r'), ("cloudflare", errorConstraint msg)] ∧
    (errorConstraint msg).restrictions = ["detection_failed: " ++ msg] ∧
    (errorConstraint msg).permissions = [] := by
  exact ⟨rfl, rfl, rfl, rfl, rfl⟩

/-- C9: for every behavior of the backend handle, the records returned by
`detect_digitalocean_constraints` and `detect_cloudflare_constraints` have
`read_only = false`: the only assignment of `read_only = True` in the
DigitalOcean probe sits in an `except` branch whose `try` body is a single
list append that cannot raise, and the CloudFlare probe never assigns
`read_only`. -/
theorem C9_read_only_never_detected (ob : DOBehavior) (cb : CFBehavior) :
    (detect_digitalocean_constraints ob).read_only = false ∧
    (detect_cloudflare_constraints cb).read_only = false :=
  ⟨dio_read_only_false ob, cf_read_only_false cb⟩

/-- C10: the "docker" record of the aggregator's output does not depend on
the value of the `docker_client` argument — any two present docker clients
yield identical output (with the other arguments and the docker environment
fixed), because `detect_docker_constraints` takes no handle and
`docker_client` is consulted only for presence. -/
theorem C10_docker_client_value_irrelevant {α : Type} (a b : α)
    (doc : Option DOBehavior) (cc : Option CFBehavior) (env : DockerBehavior) :
    get_all_token_constraints (some a) doc cc env =
      get_all_token_constraints (some b) doc cc env := rfl

/-- C6: every record produced by a probe function or by the aggregator
satisfies the invariant that `read_only = true` implies some restriction
entry contains the text `read_only` (the first conjunct makes the Boolean
encoding of that implication explicit; in this code the invariant holds
because no reachable path ever sets `read_only`). -/
theorem C6_read_only_restriction_invariant {α : Type} (dc : Option α)
    (doc : Option DOBehavior) (cc : Option CFBehavior) (env : DockerBehavior)
    (ob : DOBehavior) (cb : CFBehavior) :
    (∀ tc : TokenConstraints, readOnlyOk tc = true ↔
      (tc.read_only = true → ∃ r ∈ tc.restrictions, strContains "read_only" r = true)) ∧
    readOnlyOk (detect_docker_constraints env) = true ∧
    readOnlyOk (detect_digitalocean_constraints ob) = true ∧
    readOnlyOk (detect_cloudflare_constraints cb) = true ∧
    (get_all_token_constraints dc doc cc env).all (fun p => readOnlyOk p.2) = true := by
  refine ⟨?_, ?_, ?_, ?_, ?_⟩
  · intro tc
    cases h : tc.read_only <;> simp [readOnlyOk, h, List.any_eq_true]
  · simp [readOnlyOk, docker_read_only_false]
  · simp [readOnlyOk, dio_read_only_false]
  · simp [readOnlyOk, cf_read_only_false]
  · cases dc <;> cases doc <;> cases cc <;>
      simp [get_all_token_constraints, collect_results, readOnlyOk,
        docker_read_only_false, dio_read_only_false, cf_read_only_false]

/-- C4: `validate_token_permissions` implements the documented first-match
decision order (absent service → allow; read-only token and a write verb in
the operation → deny citing read-only; a restriction containing the
operation case-insensitively → deny citing it; non-empty permissions with no
entry containing the operation or its dotted form → deny; otherwise allow),
stated as extensional agreement with `permission_policy_spec`, the policy
transcribed from the spec's words; and in particular a read-only record
denies `delete_droplet` while an all-empty record allows it. -/
theorem C4_policy_first_match :
    (∀ s o cs, validate_token_permissions s o cs = permission_policy_spec s o cs) ∧
    validate_token_permissions "digitalocean" "delete_droplet"
      [("digitalocean", { read_only := true })] = .denyReadOnly ∧
    validate_token_permissions "digitalocean" "delete_droplet"
      [("digitalocean", {})] = .allow := by
  refine ⟨?_, by decide, by decide⟩
  intro s o cs
  unfold validate_token_permissions permission_policy_spec
  cases cs.lookup s with
  | none => rfl
  | some c =>
    simp only
    by_cases h1 : c.read_only = true ∧ ∃ v ∈ write_operations, strContains v (lowerStr o) = true
    · rw [if_pos (by simpa [List.any_eq_true] using h1), if_pos h1]
    · rw [if_neg (by simpa [List.any_eq_true] using h1), if_neg h1]
      cases hf : c.restrictions.find? (fun r => strContains (lowerStr o) (lowerStr r)) with
      | some r => rfl
      | none =>
        simp only
        by_cases hp : c.permissions = []
        · rw [if_pos (by simp [hp, List.isEmpty_iff]), if_neg (by simp [hp])]
        · rw [if_neg (by simp [List.isEmpty_iff, hp])]
          by_cases ha : c.permissions.any (fun perm =>
              strContains (lowerStr o) (lowerStr perm) ||
              strContains (lowerStr (underscoreToDot o)) (lowerStr perm)) = true
          · rw [if_pos ha, if_neg (by
              rintro ⟨-, hall⟩
              rcases List.any_eq_true.mp ha with ⟨p, hpmem, hpp⟩
              exact hall p hpmem (by simpa using hpp))]
          · rw [if_neg ha, if_pos ⟨hp, fun p hpmem hcon => ha (List.any_eq_true.mpr
              ⟨p, hpmem, by simpa using hcon⟩)⟩]

/-- C1 counterexample: with every underlying call failing (the worst case),
the aggregator's output is NOT restriction-only — the docker record still
carries the optimistic permission `docker.containers.create` and the
DigitalOcean record `droplets.write`, because those tags are appended by
`try` bodies that make no backend call. -/
theorem C1_counterexample :
    (get_all_token_constraints (some ())
        (some ⟨.error "boom", .error "boom", .error "boom"⟩)
        (some ⟨.error "boom", .error "boom", .error "boom"⟩)
        ⟨.ok (), .error "boom", .error "boom", .error "boom"⟩).map
      (fun p => (p.1, p.2.permissions)) =
      [("docker", ["docker.containers.create"]),
       ("digitalocean", ["droplets.write"]),
       ("cloudflare", [])] ∧
    (["droplets.write"] : List String) ≠ [] := ⟨rfl, by decide⟩

/-- C1 amended: every probe function is total (always returns a fully-formed
record, for every behavior of its backend, including all-failing ones) and
the aggregator with all three handles present always returns a complete
three-entry mapping; but the worst-case output is not restriction-only:
with every underlying call failing, the DigitalOcean record keeps the
optimistic permission `droplets.write` and the docker record (when client
construction succeeded) keeps `docker.containers.create`; only the
CloudFlare record, and the docker record when client construction itself
failed, are restriction-only. -/
theorem C1_amended {α : Type} (a : α) (env : DockerBehavior) (ob : DOBehavior)
    (cb : CFBehavior) (e1 e2 e3 f1 f2 f3 g : String) :
    (get_all_token_constraints (some a) (some ob) (some cb) env).map Prod.fst =
      ["docker", "digitalocean", "cloudflare"] ∧
    (get_all_token_constraints (some a)
        (some ⟨.error e1, .error e2, .error e3⟩)
        (some ⟨.error f1, .error f2, .error f3⟩)
        ⟨.ok (), .error g, .error g, .error g⟩).map
      (fun p => (p.1, p.2.permissions, p.2.restrictions)) =
      [("docker", ["docker.containers.create"],
         ["docker.ping_failed", "docker.containers.read_denied", "docker.images.read_denied"]),
       ("digitalocean", ["droplets.write"],
         ["account.read_denied: " ++ e1, "droplets.read_denied: " ++ e2,
          "domains.read_denied: " ++ e3]),
       ("cloudflare", [],
         ["token.verification_failed: " ++ f1, "zones.read_denied: " ++ f2,
          "accounts.read_denied: " ++ f3])] ∧
    detect_docker_constraints ⟨.error g, .ok (), .ok (), .ok ()⟩ =
      { restrictions := ["docker.unavailable: " ++ g] } :=
  ⟨rfl, rfl, rfl⟩

/-- C5 counterexample: a DigitalOcean handle that raises on every call does
not yield `permissions == []` — the optimistic `droplets.write` tag is
appended unconditionally by a `try` body that makes no call. -/
theorem C5_counterexample :
    (detect_digitalocean_constraints
        ⟨.error "boom", .error "boom", .error "boom"⟩).permissions = ["droplets.write"] ∧
    (detect_digitalocean_constraints
        ⟨.error "boom", .error "boom", .error "boom"⟩).permissions ≠ [] :=
  ⟨rfl, by decide⟩

/-- C5 amended: for a handle raising on every call, each probe returns (it
never raises, being total) a record with a non-empty restrictions list; the
CloudFlare record, and the docker record when client construction itself
fails, have empty permissions, but the DigitalOcean record has permissions
exactly `["droplets.write"]` and the docker record with client construction
succeeding has exactly `["docker.containers.create"]` (the unconditional
optimistic write tags). -/
theorem C5_amended (e1 e2 e3 f1 f2 f3 g : String) :
    (detect_digitalocean_constraints ⟨.error e1, .error e2, .error e3⟩).permissions =
      ["droplets.write"] ∧
    (detect_digitalocean_constraints ⟨.error e1, .error e2, .error e3⟩).restrictions =
      ["account.read_denied: " ++ e1, "droplets.read_denied: " ++ e2,
       "domains.read_denied: " ++ e3] ∧
    (detect_cloudflare_constraints ⟨.error f1, .error f2, .error f3⟩).permissions = [] ∧
    (detect_cloudflare_constraints ⟨.error f1, .error f2, .error f3⟩).restrictions =
      ["token.verification_failed: " ++ f1, "zones.read_denied: " ++ f2,
       "accounts.read_denied: " ++ f3] ∧
    (detect_docker_constraints ⟨.ok (), .error g, .error g, .error g⟩).permissions =
      ["docker.containers.create"] ∧
    (detect_docker_constraints ⟨.ok (), .error g, .error g, .error g⟩).restrictions =
      ["docker.ping_failed", "docker.containers.read_denied", "docker.images.read_denied"] ∧
    (detect_docker_constraints ⟨.error g, .ok (), .ok (), .ok ()⟩).permissions = [] ∧
    (detect_docker_constraints ⟨.error g, .ok (), .ok (), .ok ()⟩).restrictions =
      ["docker.unavailable: " ++ g] :=
  ⟨rfl, rfl, rfl, rfl, rfl, rfl, rfl, rfl⟩

/-- C8 counterexample: a DigitalOcean handle whose connectivity check
(account read) fails while its list-read checks succeed yields one
restriction `account.read_denied: conn` — a denied tag, not an unavailable
tag — and three permission entries, not exactly one. -/
theorem C8_counterexample :
    (detect_digitalocean_constraints ⟨.error "conn", .ok (), .ok ()⟩).restrictions =
      ["account.read_denied: conn"] ∧
    (detect_digitalocean_constraints ⟨.error "conn", .ok (), .ok ()⟩).permissions =
      ["droplets.read", "domains.read", "droplets.write"] ∧
    strContains ".unavailable" "account.read_denied: conn" = false ∧
    (["droplets.read", "domains.read", "droplets.write"] : List String).length ≠ 1 := by
  refine ⟨?_, ?_, by decide, by decide⟩ <;> rfl

/-- C8 amended: with the connectivity check failing and every other call
succeeding, the record has exactly one restriction entry — the connectivity
capability's denied/failed tag (`account.read_denied: <msg>` for
DigitalOcean, the bare `docker.ping_failed` for docker), not an unavailable
tag — and its permissions contain the read capability tag together with the
other succeeding checks' tags and the optimistic write tag. -/
theorem C8_amended (e ed : String) :
    (detect_digitalocean_constraints ⟨.error e, .ok (), .ok ()⟩).restrictions =
      ["account.read_denied: " ++ e] ∧
    (detect_digitalocean_constraints ⟨.error e, .ok (), .ok ()⟩).permissions =
      ["droplets.read", "domains.read", "droplets.write"] ∧
    (detect_docker_constraints ⟨.ok (), .error ed, .ok (), .ok ()⟩).restrictions =
      ["docker.ping_failed"] ∧
    (detect_docker_constraints ⟨.ok (), .error ed, .ok (), .ok ()⟩).permissions =
      ["docker.containers.read", "docker.images.read", "docker.containers.create"] :=
  ⟨rfl, rfl, rfl, rfl⟩

/-- C7 counterexample: the docker probe appends the bare tag
`docker.ping_failed` when its ping check fails — a restriction entry with no
colon-separated error text, matching neither the `<capability>_denied:
<text>` nor the `<capability>.unavailable: <text>` form. -/
theorem C7_counterexample :
    (detect_docker_constraints ⟨.ok (), .error "boom", .ok (), .ok ()⟩).restrictions =
      ["docker.ping_failed"] ∧
    ¬ restrWellFormed "docker.ping_failed" := by
  refine ⟨rfl, fun h => ?_⟩
  exact absurd ((matchesRestrForm_iff "docker.ping_failed").mpr h) (by decide)

/-- C7 amended: every restriction entry appended by the DigitalOcean probe
has one of the two documented forms (`<capability>_denied: <text>` or
`<capability>.unavailable: <text>`); the docker probe additionally appends
the three bare per-check tags `docker.ping_failed`,
`docker.containers.read_denied`, `docker.images.read_denied`, which carry no
error text and match neither form; and the CloudFlare probe additionally
appends `token.verification_failed: <text>` and `token.status: <status>`
entries, which match neither form.  (The first conjunct ties the executable
form test to the two forms.) -/
theorem C7_amended :
    (∀ s, matchesRestrForm s = true ↔ restrWellFormed s) ∧
    (∀ b : DOBehavior,
      (detect_digitalocean_constraints b).restrictions.all matchesRestrForm = true) ∧
    (∀ b : DockerBehavior, (detect_docker_constraints b).restrictions.all
      (fun r => matchesRestrForm r || dockerBareTags.contains r) = true) ∧
    (∀ b : CFBehavior, (detect_cloudflare_constraints b).restrictions.all
      (fun r => matchesRestrForm r || strStarts "token.verification_failed: " r ||
        strStarts "token.status: " r) = true) := by
  have hAcc : ∀ t, matchesRestrForm ("account.read_denied: " ++ t) = true :=
    fun t => matchesRestrForm_append _ t (by decide)
  have hDrop : ∀ t, matchesRestrForm ("droplets.read_denied: " ++ t) = true :=
    fun t => matchesRestrForm_append _ t (by decide)
  have hDom : ∀ t, matchesRestrForm ("domains.read_denied: " ++ t) = true :=
    fun t => matchesRestrForm_append _ t (by decide)
  have hZon : ∀ t, matchesRestrForm ("zones.read_denied: " ++ t) = true :=
    fun t => matchesRestrForm_append _ t (by decide)
  have hAccs : ∀ t, matchesRestrForm ("accounts.read_denied: " ++ t) = true :=
    fun t => matchesRestrForm_append _ t (by decide)
  have hUnav : ∀ t, matchesRestrForm ("docker.unavailable: " ++ t) = true :=
    fun t => matchesRestrForm_append _ t (by decide)
  have hVer : ∀ t, strStarts "token.verification_failed: "
      ("token.verification_failed: " ++ t) = true :=
    fun t => strStarts_append _ _ t (by decide)
  have hSt : ∀ t, strStarts "token.status: " ("token.status: " ++ t) = true :=
    fun t => strStarts_append _ _ t (by decide)
  refine ⟨matchesRestrForm_iff, ?_, ?_, ?_⟩
  · intro b
    unfold detect_digitalocean_constraints
    repeat' split
    all_goals simp [hAcc, hDrop, hDom]
  · intro b
    unfold detect_docker_constraints
    repeat' split
    all_goals simp [dockerBareTags, hUnav]
  · intro b
    unfold detect_cloudflare_constraints
    repeat' split
    all_goals simp [apply_ite (f := TokenConstraints.restrictions), hZon, hAccs, hVer, hSt]
